import Mathlib

/-!
# Verification of the QA_API_Advanced test-support library

Shallow embedding of the repository's core modules:

* `src/utils/validators.py`   — `ResponseValidator` (status, schema, latency,
  content-type, field existence / type / non-emptiness checks);
* `src/utils/api_client.py`   — `APIClient` (HTTP verb methods over a session,
  context-manager protocol);
* `src/utils/api_endpoints.py` — `APIEndpoints` (static endpoint registry);
* `src/data/test_data.py`     — `TestData` (static fixtures and schemas).

JSON documents are modelled by the inductive `JVal`; Python exceptions by the
`PyError` type, and fallible Python procedures by `Except PyError`.  The
third-party `jsonschema.validate` routine is modelled on the declarative
schema documents the repository actually uses (`type` object/array/integer/
string, `properties`, `required`, `items`, `minItems`; the `format` keyword
is annotation-only under `jsonschema`'s default configuration and hence
ignored), with `iterErrors` producing the validation errors in document
order and the raised error being the first of them.
-/

namespace QAApi

/-- JSON values, as decoded from a response body (Python `dict`/`list`/
`str`/`int`/`bool`/`None`).  Objects keep their key order, as Python dicts
do. -/
inductive JVal where
  | null : JVal
  | bool (b : Bool) : JVal
  | int (n : Int) : JVal
  | str (s : String) : JVal
  | arr (xs : List JVal) : JVal
  | obj (kvs : List (String × JVal)) : JVal

mutual

/-- Structural (Python `==`) equality on JSON values. -/
def JVal.beq : JVal → JVal → Bool
  | .null, .null => true
  | .bool a, .bool b => a == b
  | .int a, .int b => a == b
  | .str a, .str b => a == b
  | .arr xs, .arr ys => JVal.beqList xs ys
  | .obj kvs, .obj lvs => JVal.beqObj kvs lvs
  | _, _ => false

/-- Elementwise equality of JSON arrays. -/
def JVal.beqList : List JVal → List JVal → Bool
  | [], [] => true
  | x :: xs, y :: ys => JVal.beq x y && JVal.beqList xs ys
  | _, _ => false

/-- Pairwise equality of JSON objects (keys and values, in order). -/
def JVal.beqObj : List (String × JVal) → List (String × JVal) → Bool
  | [], [] => true
  | (k, v) :: xs, (l, w) :: ys => k == l && JVal.beq v w && JVal.beqObj xs ys
  | _, _ => false

end

/-- Python `d[k]` / `k in d` lookup on an object's key-value list: first
binding wins. -/
def lookupKey : List (String × JVal) → String → Option JVal
  | [], _ => none
  | (k', v) :: rest, k => if k' = k then some v else lookupKey rest k

/-- The keys of an object, in order (Python `list(d.keys())`). -/
def objKeys (kvs : List (String × JVal)) : List String := kvs.map Prod.fst

/-- Schema documents of the shape used by `TestData`: a `type` keyword that
is one of `"integer"`, `"string"`, `"object"` (with `properties` and
`required`) or `"array"` (with `items` and `minItems`). -/
inductive Schema where
  | int : Schema
  | str : Schema
  | obj (properties : List (String × Schema)) (required : List String) : Schema
  | arr (items : Schema) (minItems : Nat) : Schema

/-- A path element of a `jsonschema` validation error: an object key or an
array index. -/
inductive PathElem where
  | key (k : String) : PathElem
  | idx (i : Nat) : PathElem
deriving DecidableEq, Repr

/-- A `jsonschema.ValidationError`, reduced to the two attributes the
repository reads: `e.path` and `e.message`. -/
structure VErr where
  path : List PathElem
  message : String
deriving DecidableEq, Repr

/-- Python `repr` of a JSON value, as it appears inside `jsonschema` error
messages. -/
def jsonRepr : JVal → String
  | .null => "None"
  | .bool true => "True"
  | .bool false => "False"
  | .int n => toString n
  | .str s => "\x27" ++ s ++ "\x27"
  | .arr xs =>
      "[" ++ String.intercalate ", " (xs.attach.map (fun ⟨x, _⟩ => jsonRepr x)) ++ "]"
  | .obj kvs =>
      "\x7b" ++
        String.intercalate ", "
          (kvs.attach.map (fun ⟨(k, v), _⟩ => "\x27" ++ k ++ "\x27: " ++ jsonRepr v)) ++
      "\x7d"
termination_by v => sizeOf v
decreasing_by
  · have h := List.sizeOf_lt_of_mem ‹x ∈ xs›
    simp only [JVal.arr.sizeOf_spec]
    omega
  · have h := List.sizeOf_lt_of_mem ‹(k, v) ∈ kvs›
    simp only [Prod.mk.sizeOf_spec] at h
    simp only [JVal.obj.sizeOf_spec]
    omega

/-- The `type` name a schema declares, as it appears in error messages. -/
def Schema.typeName : Schema → String
  | .int => "integer"
  | .str => "string"
  | .obj _ _ => "object"
  | .arr _ _ => "array"

/-- A `jsonschema` type-mismatch error at the current location. -/
def typeErr (v : JVal) (s : Schema) : VErr :=
  ⟨[], jsonRepr v ++ " is not of type \x27" ++ s.typeName ++ "\x27"⟩

/-- A `jsonschema` missing-required-property error. -/
def requiredErr (k : String) : VErr :=
  ⟨[], "\x27" ++ k ++ "\x27 is a required property"⟩

/-- A `jsonschema` `minItems` error. -/
def minItemsErr (xs : List JVal) : VErr :=
  ⟨[], jsonRepr (.arr xs) ++ " is too short"⟩

/-- Prefix an error's path with an object key (descent through
`properties`). -/
def pushKey (k : String) (e : VErr) : VErr := ⟨.key k :: e.path, e.message⟩

/-- Prefix an error's path with an array index (descent through `items`). -/
def pushIdx (i : Nat) (e : VErr) : VErr := ⟨.idx i :: e.path, e.message⟩

/-- `jsonschema`'s `iter_errors`, specialised to the schema documents of
`Schema`: the validation errors of `v` against `s`, in document order
(`type`, then `properties` in declaration order, then `required`;
for arrays `type`, then `items` in element order, then `minItems`). -/
def iterErrors : Schema → JVal → List VErr
  | .int, v =>
      match v with
      | .int _ => []
      | _ => [typeErr v .int]
  | .str, v =>
      match v with
      | .str _ => []
      | _ => [typeErr v .str]
  | .obj props req, v =>
      match v with
      | .obj kvs =>
          (props.attach.map (fun ⟨(k, sub), _⟩ =>
            match lookupKey kvs k with
            | some v' => (iterErrors sub v').map (pushKey k)
            | none => [])).flatten ++
          (req.filter (fun k => (lookupKey kvs k).isNone)).map requiredErr
      | _ => [typeErr v (.obj props req)]
  | .arr items minI, v =>
      match v with
      | .arr xs =>
          (xs.enum.map (fun p => (iterErrors items p.2).map (pushIdx p.1))).flatten ++
          (if xs.length < minI then [minItemsErr xs] else [])
      | _ => [typeErr v (.arr items minI)]
termination_by s _ => sizeOf s
decreasing_by
  · have h := List.sizeOf_lt_of_mem ‹(k, sub) ∈ props›
    simp only [Prod.mk.sizeOf_spec] at h
    simp only [Schema.obj.sizeOf_spec]
    omega
  · simp only [Schema.arr.sizeOf_spec]
    omega

/-- The declarative conformance relation the schema documents denote:
`v` conforms to `s` when the declared type matches, every declared property
that is present conforms to its sub-schema, every required key is present,
every array element conforms to `items`, and the array is at least
`minItems` long. -/
def conforms : Schema → JVal → Bool
  | .int, v =>
      match v with
      | .int _ => true
      | _ => false
  | .str, v =>
      match v with
      | .str _ => true
      | _ => false
  | .obj props req, v =>
      match v with
      | .obj kvs =>
          (props.attach.all (fun ⟨(k, sub), _⟩ =>
            match lookupKey kvs k with
            | some v' => conforms sub v'
            | none => true)) &&
          (req.all (fun k => (lookupKey kvs k).isSome))
      | _ => false
  | .arr items minI, v =>
      match v with
      | .arr xs => (xs.all (fun x => conforms items x)) && decide (minI ≤ xs.length)
      | _ => false
termination_by s _ => sizeOf s
decreasing_by
  · have h := List.sizeOf_lt_of_mem ‹(k, sub) ∈ props›
    simp only [Prod.mk.sizeOf_spec] at h
    simp only [Schema.obj.sizeOf_spec]
    omega
  · simp only [Schema.arr.sizeOf_spec]
    omega

/-- Python membership `v in l` on a list of JSON values (`==` per element). -/
def pyIn (v : JVal) (l : List JVal) : Bool := l.any (fun item => JVal.beq v item)

/-- The Python exceptions the validator layer can produce. -/
inductive PyError where
  | assertionError (msg : String)
  | keyError (k : String)
deriving DecidableEq, Repr

/-- `response.elapsed` (a `timedelta`), reduced to the one method the code
calls; `total_seconds` is modelled as an exact rational. -/
structure Elapsed where
  total_seconds : ℚ
deriving DecidableEq, Repr

/-- A `requests.Response`, reduced to the attributes the validators read.
`body` is the decoded `response.json()`. -/
structure PyResponse where
  status_code : Int
  headers : List (String × String)
  elapsed : Elapsed
  text : String
  body : JVal

/-- `response.headers.get(k, default)`. -/
def headersGet (headers : List (String × String)) (k dflt : String) : String :=
  match headers.lookup k with
  | some v => v
  | none => dflt

/-- Python substring containment `needle in hay` on strings. -/
def strContains (hay needle : String) : Bool := decide (needle.data <:+: hay.data)

/-- Python `repr` of a list of strings, as interpolated into the
field-exists failure message. -/
def strListRepr (ks : List String) : String :=
  "[" ++ String.intercalate ", " (ks.map (fun k => "\x27" ++ k ++ "\x27")) ++ "]"

/-- Python `d[field_name]` on a decoded JSON object: the value, or a
`KeyError` when the key is absent. -/
def dictGetItem (d : List (String × JVal)) (k : String) : Except PyError JVal :=
  match lookupKey d k with
  | some v => .ok v
  | none => .error (.keyError k)

namespace ResponseValidator

/-- `ResponseValidator.validate_status_code`: assert the status code equals
the expected one. -/
def validate_status_code (response : PyResponse) (expected_code : Int) :
    Except PyError Unit :=
  if response.status_code = expected_code then .ok ()
  else .error (.assertionError
    ("Expected status " ++ toString expected_code ++ ", got " ++
      toString response.status_code ++ ". Response: " ++ response.text))

/-- `jsonschema.validate(instance, schema)`: raises the first validation
error, or returns normally when there is none. -/
def jsonschema_validate (inst : JVal) (schema : Schema) : Option VErr :=
  (iterErrors schema inst).head?

/-- Python `list(e.path)` as printed by the schema-failure logging. -/
def PathElem.pyRepr : PathElem → String
  | .key k => "\x27" ++ k ++ "\x27"
  | .idx i => toString i

/-- The printed form of a `jsonschema` error path. -/
def pathRepr (p : List PathElem) : String :=
  "[" ++ String.intercalate ", " (p.map PathElem.pyRepr) ++ "]"

/-- `ResponseValidator.validate_json_schema`: run `jsonschema.validate`
inside `try/except ValidationError`; return `True` on success, and on a
validation error print two diagnostic lines (the error's message and path)
and return `False`.  The second component collects the printed lines. -/
def validate_json_schema (response_json : JVal) (schema : Schema) :
    Bool × List String :=
  match jsonschema_validate response_json schema with
  | none => (true, [])
  | some e =>
      (false,
        ["Schema validation failed: " ++ e.message,
         "Failed at path: " ++ pathRepr e.path])

/-- `ResponseValidator.validate_response_time`: assert that
`response.elapsed.total_seconds() * 1000` is strictly below
`max_time_ms`.  (Python renders the actual time with two decimal places;
the message here carries the exact value, still naming both numbers.) -/
def validate_response_time (response : PyResponse) (max_time_ms : Int) :
    Except PyError Unit :=
  let response_time_ms : ℚ := response.elapsed.total_seconds * 1000
  if response_time_ms < (max_time_ms : ℚ) then .ok ()
  else .error (.assertionError
    ("Response time " ++ toString response_time_ms ++
      "ms exceeds limit of " ++ toString max_time_ms ++ "ms"))

/-- `ResponseValidator.validate_content_type`: read the `Content-Type`
header with default `""` and assert the expected type is a substring of
it. -/
def validate_content_type (response : PyResponse)
    (expected_type : String := "application/json") : Except PyError Unit :=
  let content_type := headersGet response.headers "Content-Type" ""
  if strContains content_type expected_type then .ok ()
  else .error (.assertionError
    ("Expected Content-Type \x27" ++ expected_type ++ "\x27, got \x27" ++
      content_type ++ "\x27"))

/-- `ResponseValidator.validate_field_exists`: assert the key is present in
the decoded body. -/
def validate_field_exists (response_json : List (String × JVal))
    (field_name : String) : Except PyError Unit :=
  if (lookupKey response_json field_name).isSome then .ok ()
  else .error (.assertionError
    ("Field \x27" ++ field_name ++ "\x27 not found in response. Available fields: " ++
      strListRepr (objKeys response_json)))

/-- `ResponseValidator.validate_not_empty`: the field must exist and its
value must not equal any of `None`, `""`, `[]`, `{}` (Python list
membership via `==`). -/
def validate_not_empty (response_json : List (String × JVal))
    (field_name : String) : Except PyError Unit := do
  validate_field_exists response_json field_name
  let value ← dictGetItem response_json field_name
  if pyIn value [JVal.null, JVal.str "", JVal.arr [], JVal.obj []] then
    throw (.assertionError
      ("Field \x27" ++ field_name ++ "\x27 is empty: " ++ jsonRepr value))
  else
    pure ()

end ResponseValidator

/-! ## `src/utils/api_client.py` -/

/-- HTTP verb of a request. -/
inductive HttpMethod where
  | get | post | put | patch | delete
deriving DecidableEq, Repr

/-- Query parameters (the Python dict passed as `params=`). -/
abbrev Params := List (String × String)

/-- A `requests.Session`, reduced to what the repository touches:
persistent headers and whether `close()` has been called. -/
structure Session where
  headers : List (String × String)
  closed : Bool
deriving DecidableEq, Repr

/-- `requests.Session()`: a fresh, open session (library-default headers
are not modelled; only those the repository installs appear). -/
def Session.new : Session := { headers := [], closed := false }

/-- Python `dict.update` on a header mapping: existing keys are
overwritten in place, new keys appended in order. -/
def headersUpdate (hs news : List (String × String)) :
    List (String × String) :=
  news.foldl (fun acc kv =>
    if (acc.lookup kv.1).isSome then
      acc.map (fun kv' => if kv'.1 = kv.1 then (kv'.1, kv.2) else kv')
    else acc ++ [kv]) hs

/-- The request descriptor a verb method hands to the underlying session
call: method, absolute URL, optional query parameters, optional JSON body,
the session's headers, and the timeout passed with the call. -/
structure Request where
  method : HttpMethod
  url : String
  params : Option Params
  json : Option JVal
  headers : List (String × String)
  timeout : Int

/-- `session.get(url, params=..., timeout=...)`: the issued request. -/
def Session.get (s : Session) (url : String) (params : Option Params)
    (timeout : Int) : Request :=
  { method := .get, url := url, params := params, json := none,
    headers := s.headers, timeout := timeout }

/-- `session.post(url, json=..., timeout=...)`: the issued request. -/
def Session.post (s : Session) (url : String) (json : Option JVal)
    (timeout : Int) : Request :=
  { method := .post, url := url, params := none, json := json,
    headers := s.headers, timeout := timeout }

/-- `session.put(url, json=..., timeout=...)`: the issued request. -/
def Session.put (s : Session) (url : String) (json : Option JVal)
    (timeout : Int) : Request :=
  { method := .put, url := url, params := none, json := json,
    headers := s.headers, timeout := timeout }

/-- `session.patch(url, json=..., timeout=...)`: the issued request. -/
def Session.patch (s : Session) (url : String) (json : Option JVal)
    (timeout : Int) : Request :=
  { method := .patch, url := url, params := none, json := json,
    headers := s.headers, timeout := timeout }

/-- `session.delete(url, timeout=...)`: the issued request. -/
def Session.delete (s : Session) (url : String) (timeout : Int) : Request :=
  { method := .delete, url := url, params := none, json := none,
    headers := s.headers, timeout := timeout }

/-- `session.close()`. -/
def Session.close (s : Session) : Session := { s with closed := true }

/-- The `APIClient` state: base URL, timeout and the owned session. -/
structure APIClient where
  base_url : String
  timeout : Int
  session : Session

namespace APIClient

/-- `APIClient.__init__(base_url, timeout=10)`: store both parameters,
create a session and install the default JSON headers via
`session.headers.update`. -/
def init (base_url : String) (timeout : Int := 10) : APIClient :=
  { base_url := base_url
    timeout := timeout
    session := { Session.new with
      headers := headersUpdate Session.new.headers
        [("Content-Type", "application/json"),
         ("Accept", "application/json")] } }

/-- `APIClient.get(endpoint, params=None)`: issue a GET to
`base_url + endpoint` through the session with the client's timeout.
Result: the issued request, paired with the client state after the call
(the method assigns no attribute, so the state is unchanged). -/
def get (c : APIClient) (endpoint : String) (params : Option Params := none) :
    Request × APIClient :=
  let url := c.base_url ++ endpoint
  (c.session.get url params c.timeout, c)

/-- `APIClient.post(endpoint, json=None)`. -/
def post (c : APIClient) (endpoint : String) (json : Option JVal := none) :
    Request × APIClient :=
  let url := c.base_url ++ endpoint
  (c.session.post url json c.timeout, c)

/-- `APIClient.put(endpoint, json=None)`. -/
def put (c : APIClient) (endpoint : String) (json : Option JVal := none) :
    Request × APIClient :=
  let url := c.base_url ++ endpoint
  (c.session.put url json c.timeout, c)

/-- `APIClient.patch(endpoint, json=None)`. -/
def patch (c : APIClient) (endpoint : String) (json : Option JVal := none) :
    Request × APIClient :=
  let url := c.base_url ++ endpoint
  (c.session.patch url json c.timeout, c)

/-- `APIClient.delete(endpoint)`. -/
def delete (c : APIClient) (endpoint : String) : Request × APIClient :=
  let url := c.base_url ++ endpoint
  (c.session.delete url c.timeout, c)

/-- `APIClient.close()`: close the session. -/
def close (c : APIClient) : APIClient := { c with session := c.session.close }

/-- `APIClient.__enter__`: returns `self`. -/
def enter (c : APIClient) : APIClient := c

/-- `APIClient.__exit__(exc_type, exc_val, exc_tb)`: call `close()`.  The
body has no return statement, so the method returns `None` (modelled as
`none : Option Bool`, Python's falsy non-suppression value). -/
def exit (c : APIClient) (exc_type : Option String) (exc_val : Option PyError)
    (exc_tb : Option Unit) : APIClient × Option Bool :=
  (c.close, none)

end APIClient

/-- The Python class name of an exception, as passed to `__exit__`. -/
def excName : PyError → String
  | .assertionError _ => "AssertionError"
  | .keyError _ => "KeyError"

/-- Python `with client: body` semantics for `APIClient`: bind
`client.__enter__()`, run the body; on normal exit call
`__exit__(None, None, None)`; on an exception `e` call
`__exit__(type(e), e, tb)` and re-raise `e` unless that call returned a
truthy value (a suppressed exception yields no body result). -/
def withClient {α : Type} (c : APIClient)
    (body : APIClient → Except PyError α) :
    Except PyError (Option α × APIClient) :=
  match body c.enter with
  | .ok a =>
      let r := c.exit none none none
      .ok (some a, r.1)
  | .error e =>
      let r := c.exit (some (excName e)) (some e) (some ())
      if r.2.getD false then .ok (none, r.1) else .error e

/-! ## `src/utils/api_endpoints.py` -/

namespace APIEndpoints

def BASE_URL : String := "https://jsonplaceholder.typicode.com"

def USERS : String := "/users"
def USER_BY_ID : String := "/users/\x7buser_id\x7d"

def POSTS : String := "/posts"
def POST_BY_ID : String := "/posts/\x7bpost_id\x7d"
def USER_POSTS : String := "/posts?userId=\x7buser_id\x7d"

def COMMENTS : String := "/comments"
def COMMENT_BY_ID : String := "/comments/\x7bcomment_id\x7d"
def POST_COMMENTS : String := "/posts/\x7bpost_id\x7d/comments"

def ALBUMS : String := "/albums"
def ALBUM_BY_ID : String := "/albums/\x7balbum_id\x7d"
def USER_ALBUMS : String := "/albums?userId=\x7buser_id\x7d"

def PHOTOS : String := "/photos"
def PHOTO_BY_ID : String := "/photos/\x7bphoto_id\x7d"

/-- `APIEndpoints.get_full_url(endpoint)`: `BASE_URL + endpoint`. -/
def get_full_url (endpoint : String) : String := BASE_URL ++ endpoint

end APIEndpoints

/-! ## `src/data/test_data.py`

The `"format": "email"` annotation in `USER_SCHEMA` is not represented:
`jsonschema.validate` is called without a format checker, under which the
`format` keyword is a no-op annotation. -/

namespace TestData

def VALID_USER_CREATE : JVal := .obj
  [("name", .str "John Doe"),
   ("username", .str "johndoe"),
   ("email", .str "john.doe@example.com"),
   ("phone", .str "1-234-567-8901"),
   ("website", .str "johndoe.com")]

def VALID_USER_UPDATE : JVal := .obj
  [("name", .str "Jane Smith"),
   ("username", .str "janesmith"),
   ("email", .str "jane.smith@example.com")]

def VALID_POST_CREATE : JVal := .obj
  [("title", .str "Test Post Title"),
   ("body", .str "This is a test post body with some content."),
   ("userId", .int 1)]

def INVALID_USER_MISSING_NAME : JVal := .obj
  [("username", .str "testuser"),
   ("email", .str "test@example.com")]

def INVALID_USER_EMPTY_EMAIL : JVal := .obj
  [("name", .str "Test User"),
   ("username", .str "testuser"),
   ("email", .str "")]

def USER_SCHEMA : Schema := .obj
  [("id", .int), ("name", .str), ("username", .str), ("email", .str),
   ("phone", .str), ("website", .str)]
  ["id", "name", "username", "email"]

def POST_SCHEMA : Schema := .obj
  [("id", .int), ("userId", .int), ("title", .str), ("body", .str)]
  ["id", "userId", "title", "body"]

def COMMENT_SCHEMA : Schema := .obj
  [("id", .int), ("postId", .int), ("name", .str), ("email", .str),
   ("body", .str)]
  ["id", "postId", "name", "email", "body"]

def USERS_LIST_SCHEMA : Schema := .arr USER_SCHEMA 1

def VALID_USER_ID : Int := 1
def VALID_POST_ID : Int := 1
def INVALID_USER_ID : Int := 99999
def INVALID_POST_ID : Int := 99999

def MAX_RESPONSE_TIME_GET : Int := 3000
def MAX_RESPONSE_TIME_POST : Int := 3000

end TestData

/-! ## Supporting lemmas -/

/-- Quantifying over the enumerated list is quantifying over the list. -/
theorem forall_mem_enum_iff {α : Type} {P : α → Prop} {xs : List α} :
    (∀ p ∈ xs.enum, P p.2) ↔ ∀ x ∈ xs, P x := by
  constructor
  · intro h x hx
    obtain ⟨i, rfl⟩ := List.mem_iff_get.mp hx
    exact h (i.1, xs.get i) (List.mem_enum_iff_getElem?.mpr (by simp))
  · intro h p hp
    exact h p.2 (List.getElem?_mem (List.mem_enum_iff_getElem?.mp hp))

/-- `jsonschema` produces no validation error exactly when the instance
conforms to the schema in the declarative sense. -/
theorem iterErrors_eq_nil_iff (s : Schema) (v : JVal) :
    iterErrors s v = [] ↔ conforms s v = true := by
  induction s, v using iterErrors.induct with
  | case1 n => simp [iterErrors, conforms]
  | case2 v h =>
    cases v <;> first
      | exact absurd rfl (h _)
      | simp [iterErrors, conforms]
  | case3 s => simp [iterErrors, conforms]
  | case4 v h =>
    cases v <;> first
      | exact absurd rfl (h _)
      | simp [iterErrors, conforms]
  | case5 props req kvs ih =>
    simp only [iterErrors, conforms]
    rw [List.append_eq_nil, Bool.and_eq_true, List.all_eq_true, List.all_eq_true]
    apply and_congr
    · rw [List.flatten_eq_nil_iff, List.forall_mem_map]
      apply forall_congr'
      intro p
      obtain ⟨⟨k, sub⟩, hmem⟩ := p
      simp only [List.mem_attach, true_implies]
      cases hl : lookupKey kvs k with
      | none => simp
      | some v' => simpa [List.map_eq_nil_iff] using ih k sub hmem v'
    · rw [List.map_eq_nil_iff, List.filter_eq_nil_iff]
      apply forall_congr'
      intro k
      cases lookupKey kvs k <;> simp
  | case6 props req v h =>
    cases v <;> first
      | exact absurd rfl (h _)
      | simp [iterErrors, conforms]
  | case7 items minI xs ih =>
    simp only [iterErrors, conforms]
    rw [List.append_eq_nil, Bool.and_eq_true, List.all_eq_true]
    apply and_congr
    · rw [List.flatten_eq_nil_iff, List.forall_mem_map]
      simp only [List.map_eq_nil_iff]
      refine Iff.trans (forall_mem_enum_iff (P := fun x => iterErrors items x = [])) ?_
      exact forall_congr' fun x => imp_congr Iff.rfl (ih (0, x))
    · split <;> simp <;> omega
  | case8 items minI v h =>
    cases v <;> first
      | exact absurd rfl (h _)
      | simp [iterErrors, conforms]

/-- Python `v in [None, "", [], {}]` holds exactly when `v` is one of the
four empty sentinels. -/
theorem pyIn_sentinels_iff (v : JVal) :
    pyIn v [JVal.null, JVal.str "", JVal.arr [], JVal.obj []] = true ↔
      (v = JVal.null ∨ v = JVal.str "" ∨ v = JVal.arr [] ∨ v = JVal.obj []) := by
  cases v with
  | null => simp [pyIn, JVal.beq]
  | bool b => simp [pyIn, JVal.beq]
  | int n => simp [pyIn, JVal.beq]
  | str s => simp [pyIn, JVal.beq]
  | arr xs => cases xs <;> simp [pyIn, JVal.beq, JVal.beqList]
  | obj kvs => cases kvs <;> simp [pyIn, JVal.beq, JVal.beqObj]

/-- Python `needle in hay` on strings is substring containment. -/
theorem strContains_iff (hay needle : String) :
    strContains hay needle = true ↔
      ∃ pre suf, hay = pre ++ needle ++ suf := by
  unfold strContains
  rw [decide_eq_true_iff]
  constructor
  · rintro ⟨s, t, hst⟩
    refine ⟨⟨s⟩, ⟨t⟩, ?_⟩
    apply String.ext
    simpa [String.data_append] using hst.symm
  · rintro ⟨pre, suf, rfl⟩
    exact ⟨pre.data, suf.data, by simp [String.data_append]⟩

/-- A string that contains a nonempty substring is nonempty: the empty
header value fails every nonempty expected content type. -/
theorem strContains_empty_hay (needle : String) (h : needle ≠ "") :
    strContains "" needle = false := by
  cases hc : strContains "" needle
  · rfl
  · exfalso
    obtain ⟨pre, suf, habs⟩ := (strContains_iff "" needle).mp hc
    have hd := congrArg String.data habs
    simp only [String.data_append] at hd
    have hnil : needle.data = [] := by
      have := List.append_eq_nil.mp hd.symm
      exact (List.append_eq_nil.mp this.1).2
    exact h (String.ext hnil)

/-- A server-style user response body: `TestData.VALID_USER_CREATE`
together with the server-generated integer `id` that `USER_SCHEMA`
requires of responses. -/
def userResponseWithId : JVal := .obj
  [("id", .int 11),
   ("name", .str "John Doe"),
   ("username", .str "johndoe"),
   ("email", .str "john.doe@example.com"),
   ("phone", .str "1-234-567-8901"),
   ("website", .str "johndoe.com")]

/-! ## The claims -/

/-- C1: for every JSON instance and every schema document,
`ResponseValidator.validate_json_schema` returns a boolean and never
raises (it is a total function into `Bool × List String`): the boolean is
`true` exactly when the instance conforms to the schema, and on
non-conformance it is `false` and the log holds the first failing error's
message and path. -/
theorem claim_C1_schema_check_boolean (inst : JVal) (schema : Schema) :
    ((ResponseValidator.validate_json_schema inst schema).1 =
      conforms schema inst) ∧
    (conforms schema inst = false →
      ∃ e es, iterErrors schema inst = e :: es ∧
        ResponseValidator.validate_json_schema inst schema =
          (false, ["Schema validation failed: " ++ e.message,
                   "Failed at path: " ++ ResponseValidator.pathRepr e.path])) := by
  cases h : iterErrors schema inst with
  | nil =>
    have hc : conforms schema inst = true := (iterErrors_eq_nil_iff _ _).mp h
    constructor
    · simp [ResponseValidator.validate_json_schema,
        ResponseValidator.jsonschema_validate, h, hc]
    · intro hfalse
      rw [hc] at hfalse
      exact absurd hfalse (by simp)
  | cons e es =>
    have hc : conforms schema inst = false := by
      cases hcc : conforms schema inst
      · rfl
      · have := (iterErrors_eq_nil_iff schema inst).mpr hcc
        rw [h] at this
        exact absurd this (by simp)
    constructor
    · simp [ResponseValidator.validate_json_schema,
        ResponseValidator.jsonschema_validate, h, hc]
    · intro _
      exact ⟨e, es, rfl, by
        simp [ResponseValidator.validate_json_schema,
          ResponseValidator.jsonschema_validate, h]⟩

/-- C1 witness: on the fixture missing the required `name` (and `id`) the
checker returns `false` and logs the first error. -/
theorem claim_C1_schema_check_boolean_witness :
    ∃ e es,
      iterErrors TestData.USER_SCHEMA TestData.INVALID_USER_MISSING_NAME = e :: es ∧
      ResponseValidator.validate_json_schema TestData.INVALID_USER_MISSING_NAME
          TestData.USER_SCHEMA =
        (false, ["Schema validation failed: " ++ e.message,
                 "Failed at path: " ++ ResponseValidator.pathRepr e.path]) :=
  (claim_C1_schema_check_boolean TestData.INVALID_USER_MISSING_NAME
      TestData.USER_SCHEMA).2
    (by simp [TestData.INVALID_USER_MISSING_NAME, TestData.USER_SCHEMA,
      conforms, lookupKey, List.attach, List.attachWith, List.pmap])

/-- C2: `ResponseValidator.validate_response_time` passes exactly when the
elapsed milliseconds are strictly below the threshold; at or above it, it
raises an `AssertionError` whose message names both the actual elapsed
milliseconds and the threshold. -/
theorem claim_C2_latency_strict (r : PyResponse) (m : Int) :
    (ResponseValidator.validate_response_time r m = .ok () ↔
      r.elapsed.total_seconds * 1000 < (m : ℚ)) ∧
    ((m : ℚ) ≤ r.elapsed.total_seconds * 1000 →
      ResponseValidator.validate_response_time r m = .error (.assertionError
        ("Response time " ++ toString (r.elapsed.total_seconds * 1000) ++
          "ms exceeds limit of " ++ toString m ++ "ms"))) := by
  constructor
  · constructor
    · intro hok
      by_contra hlt
      simp [ResponseValidator.validate_response_time, if_neg hlt] at hok
    · intro hlt
      simp [ResponseValidator.validate_response_time, if_pos hlt]
  · intro hge
    have hlt : ¬ (r.elapsed.total_seconds * 1000 < (m : ℚ)) := not_lt.mpr hge
    simp [ResponseValidator.validate_response_time, if_neg hlt]

/-- C2 witness: an elapsed time of 2.5 s against a 2000 ms threshold fails
with the message naming 2500 ms and 2000 ms. -/
theorem claim_C2_latency_strict_witness :
    ResponseValidator.validate_response_time
        ⟨200, [], ⟨5 / 2⟩, "", .null⟩ 2000 =
      .error (.assertionError
        ("Response time " ++ toString ((5 / 2 : ℚ) * 1000) ++
          "ms exceeds limit of " ++ toString (2000 : Int) ++ "ms")) :=
  (claim_C2_latency_strict ⟨200, [], ⟨5 / 2⟩, "", .null⟩ 2000).2 (by norm_num)

/-- C3 counterexample: validating `TestData.VALID_USER_CREATE` against
`TestData.USER_SCHEMA` returns `false`, not `true` as claimed — the schema
requires the server-generated `id` field, which the create payload lacks. -/
theorem claim_C3_counterexample :
    (ResponseValidator.validate_json_schema TestData.VALID_USER_CREATE
      TestData.USER_SCHEMA).1 = false := by
  simp [ResponseValidator.validate_json_schema,
    ResponseValidator.jsonschema_validate, TestData.VALID_USER_CREATE,
    TestData.USER_SCHEMA, iterErrors, lookupKey,
    List.attach, List.attachWith, List.pmap]

/-- C3 (amended): a payload containing every required field of
`USER_SCHEMA` — `VALID_USER_CREATE` extended with the server-generated
integer `id` — validates `true`; `VALID_USER_CREATE` itself validates
`false` (the schema requires `id`); and `INVALID_USER_MISSING_NAME`, which
lacks the required `name`, validates `false`. -/
theorem claim_C3_roundtrip_amended :
    (ResponseValidator.validate_json_schema userResponseWithId
      TestData.USER_SCHEMA).1 = true ∧
    (ResponseValidator.validate_json_schema TestData.VALID_USER_CREATE
      TestData.USER_SCHEMA).1 = false ∧
    (ResponseValidator.validate_json_schema TestData.INVALID_USER_MISSING_NAME
      TestData.USER_SCHEMA).1 = false := by
  refine ⟨?_, ?_, ?_⟩ <;>
    simp [ResponseValidator.validate_json_schema,
      ResponseValidator.jsonschema_validate, userResponseWithId,
      TestData.VALID_USER_CREATE, TestData.INVALID_USER_MISSING_NAME,
      TestData.USER_SCHEMA, iterErrors, lookupKey,
      List.attach, List.attachWith, List.pmap]

/-- C4: `ResponseValidator.validate_not_empty` returns without raising
exactly when the named field is present with a value different from all
of `None`, `""`, `[]`, `{}`; every failure it produces is an
`AssertionError`. -/
theorem claim_C4_not_empty (rj : List (String × JVal)) (fn : String) :
    (ResponseValidator.validate_not_empty rj fn = .ok () ↔
      ∃ v, lookupKey rj fn = some v ∧
        ¬(v = JVal.null ∨ v = JVal.str "" ∨ v = JVal.arr [] ∨ v = JVal.obj [])) ∧
    (∀ err, ResponseValidator.validate_not_empty rj fn = .error err →
      ∃ msg, err = .assertionError msg) := by
  cases hl : lookupKey rj fn with
  | none =>
    have hrun : ResponseValidator.validate_not_empty rj fn = .error
        (.assertionError ("Field \x27" ++ fn ++
          "\x27 not found in response. Available fields: " ++
          strListRepr (objKeys rj))) := by
      simp [ResponseValidator.validate_not_empty,
        ResponseValidator.validate_field_exists, hl, Bind.bind, Except.bind]
    constructor
    · simp [hrun, hl]
    · intro err herr
      rw [hrun] at herr
      exact ⟨_, (Except.error.injEq _ _).mp herr |>.symm⟩
  | some v =>
    by_cases hv : v = JVal.null ∨ v = JVal.str "" ∨ v = JVal.arr [] ∨ v = JVal.obj []
    · have hpy : pyIn v [JVal.null, JVal.str "", JVal.arr [], JVal.obj []] = true :=
        (pyIn_sentinels_iff v).mpr hv
      have hrun : ResponseValidator.validate_not_empty rj fn = .error
          (.assertionError ("Field \x27" ++ fn ++ "\x27 is empty: " ++ jsonRepr v)) := by
        simp [ResponseValidator.validate_not_empty,
          ResponseValidator.validate_field_exists, dictGetItem, hl, hpy,
          Bind.bind, Except.bind, throw, throwThe, MonadExceptOf.throw]
      constructor
      · rw [hrun]
        constructor
        · intro habs
          exact absurd habs (by simp)
        · rintro ⟨v', hv', hnv⟩
          obtain rfl : v = v' := by injection hv'
          exact absurd hv hnv
      · intro err herr
        rw [hrun] at herr
        exact ⟨_, (Except.error.injEq _ _).mp herr |>.symm⟩
    · have hpy : pyIn v [JVal.null, JVal.str "", JVal.arr [], JVal.obj []] = false := by
        cases hp : pyIn v [JVal.null, JVal.str "", JVal.arr [], JVal.obj []]
        · rfl
        · exact absurd ((pyIn_sentinels_iff v).mp hp) hv
      have hrun : ResponseValidator.validate_not_empty rj fn = .ok () := by
        simp [ResponseValidator.validate_not_empty,
          ResponseValidator.validate_field_exists, dictGetItem, hl, hpy,
          Bind.bind, Except.bind, pure, Except.pure]
      constructor
      · rw [hrun]
        exact ⟨fun _ => ⟨v, rfl, hv⟩, fun _ => rfl⟩
      · intro err herr
        rw [hrun] at herr
        exact absurd herr (by simp)

/-- C4 witness: the `INVALID_USER_EMPTY_EMAIL` fixture's `email` field is
the empty string, so the non-empty check on it raises. -/
theorem claim_C4_not_empty_witness :
    ¬ (ResponseValidator.validate_not_empty
        [("name", JVal.str "Test User"), ("username", JVal.str "testuser"),
         ("email", JVal.str "")] "email" = .ok ()) := by
  intro habs
  obtain ⟨v, hv, hnv⟩ := (claim_C4_not_empty
    [("name", JVal.str "Test User"), ("username", JVal.str "testuser"),
     ("email", JVal.str "")] "email").1.mp habs
  simp [lookupKey] at hv
  exact hnv (by simp [← hv])

/-- C5: every verb method of `APIClient` (`get`, `post`, `put`, `patch`,
`delete`) issues its request to exactly `base_url ++ endpoint` and passes
the client's configured timeout to the underlying session call. -/
theorem claim_C5_verbs_url_timeout (c : APIClient) (endpoint : String)
    (params : Option Params) (json : Option JVal) :
    ((c.get endpoint params).1.url = c.base_url ++ endpoint ∧
      (c.get endpoint params).1.timeout = c.timeout) ∧
    ((c.post endpoint json).1.url = c.base_url ++ endpoint ∧
      (c.post endpoint json).1.timeout = c.timeout) ∧
    ((c.put endpoint json).1.url = c.base_url ++ endpoint ∧
      (c.put endpoint json).1.timeout = c.timeout) ∧
    ((c.patch endpoint json).1.url = c.base_url ++ endpoint ∧
      (c.patch endpoint json).1.timeout = c.timeout) ∧
    ((c.delete endpoint).1.url = c.base_url ++ endpoint ∧
      (c.delete endpoint).1.timeout = c.timeout) :=
  ⟨⟨rfl, rfl⟩, ⟨rfl, rfl⟩, ⟨rfl, rfl⟩, ⟨rfl, rfl⟩, rfl, rfl⟩

/-- C6: the constructor installs `Content-Type: application/json` and
`Accept: application/json` on the session; every verb method sends the
session's headers with the issued request; and no verb method modifies the
client — the state after any call equals the state before it. -/
theorem claim_C6_headers_installed_and_frame (b : String) (t : Int)
    (c : APIClient) (endpoint : String) (params : Option Params)
    (json : Option JVal) :
    ((APIClient.init b t).session.headers =
      [("Content-Type", "application/json"), ("Accept", "application/json")]) ∧
    ((c.get endpoint params).1.headers = c.session.headers ∧
      (c.post endpoint json).1.headers = c.session.headers ∧
      (c.put endpoint json).1.headers = c.session.headers ∧
      (c.patch endpoint json).1.headers = c.session.headers ∧
      (c.delete endpoint).1.headers = c.session.headers) ∧
    ((c.get endpoint params).2 = c ∧ (c.post endpoint json).2 = c ∧
      (c.put endpoint json).2 = c ∧ (c.patch endpoint json).2 = c ∧
      (c.delete endpoint).2 = c) :=
  ⟨rfl, ⟨rfl, rfl, rfl, rfl, rfl⟩, rfl, rfl, rfl, rfl, rfl⟩

/-- C7: `APIClient.__exit__` invokes `close()` for every combination of
`exc_type`, `exc_val` and `exc_tb` — the resulting client is exactly
`c.close` and its session is closed on every exit path. -/
theorem claim_C7_exit_always_closes (c : APIClient) (exc_type : Option String)
    (exc_val : Option PyError) (exc_tb : Option Unit) :
    (c.exit exc_type exc_val exc_tb).1 = c.close ∧
    (c.exit exc_type exc_val exc_tb).1.session.closed = true :=
  ⟨rfl, rfl⟩

/-- C8: `APIEndpoints.get_full_url` is pure string concatenation of the
fixed base URL with the relative endpoint. -/
theorem claim_C8_get_full_url (endpoint : String) :
    APIEndpoints.get_full_url endpoint =
      "https://jsonplaceholder.typicode.com" ++ endpoint := rfl

/-- C9: `ResponseValidator.validate_content_type` is total even without a
`Content-Type` header (the header is read with default `""`): it passes
exactly when the expected type is a substring of the header value, any
failure is the descriptive `AssertionError` (never a lookup error), and a
missing header fails every nonempty expected type. -/
theorem claim_C9_content_type_total (r : PyResponse) (expected : String) :
    (ResponseValidator.validate_content_type r expected = .ok () ↔
      ∃ pre suf, headersGet r.headers "Content-Type" "" = pre ++ expected ++ suf) ∧
    (∀ err, ResponseValidator.validate_content_type r expected = .error err →
      err = .assertionError
        ("Expected Content-Type \x27" ++ expected ++ "\x27, got \x27" ++
          headersGet r.headers "Content-Type" "" ++ "\x27")) ∧
    (r.headers.lookup "Content-Type" = none → expected ≠ "" →
      ∃ msg, ResponseValidator.validate_content_type r expected =
        .error (.assertionError msg)) := by
  refine ⟨?_, ?_, ?_⟩
  · rw [← strContains_iff]
    cases hc : strContains (headersGet r.headers "Content-Type" "") expected
    · simp [ResponseValidator.validate_content_type, hc]
    · simp [ResponseValidator.validate_content_type, hc]
  · intro err herr
    cases hc : strContains (headersGet r.headers "Content-Type" "") expected
    · simp [ResponseValidator.validate_content_type, hc] at herr
      exact herr.symm
    · simp [ResponseValidator.validate_content_type, hc] at herr
  · intro hnone hne
    have hget : headersGet r.headers "Content-Type" "" = "" := by
      simp [headersGet, hnone]
    have hc : strContains "" expected = false := strContains_empty_hay expected hne
    exact ⟨"Expected Content-Type \x27" ++ expected ++ "\x27, got \x27" ++ "\x27",
      by simp [ResponseValidator.validate_content_type, hget, hc]⟩

/-- C9 witness: a response with no headers at all fails the default
content-type check with the descriptive message, not a lookup error. -/
theorem claim_C9_content_type_total_witness :
    ∃ msg, ResponseValidator.validate_content_type ⟨200, [], ⟨0⟩, "", .null⟩
        "application/json" = .error (.assertionError msg) :=
  (claim_C9_content_type_total ⟨200, [], ⟨0⟩, "", .null⟩ "application/json").2.2
    rfl (by simp)

/-- C10: `APIClient.__exit__` returns `None` (falsy), so an exception
raised inside a `with` block is never suppressed: after the session is
closed it propagates unmodified to the caller. -/
theorem claim_C10_no_suppression {α : Type} (c : APIClient)
    (body : APIClient → Except PyError α) (e : PyError)
    (hbody : body c = .error e) :
    (c.exit (some (excName e)) (some e) (some ())).2 = none ∧
    withClient c body = .error e ∧
    (c.exit (some (excName e)) (some e) (some ())).1.session.closed = true := by
  refine ⟨rfl, ?_, rfl⟩
  simp [withClient, APIClient.enter, APIClient.exit, hbody, Option.getD]

/-- C10 witness: a body that raises an `AssertionError` sees it propagate
out of the `with` block unmodified. -/
theorem claim_C10_no_suppression_witness :
    withClient (APIClient.init "https://jsonplaceholder.typicode.com" 10)
        (fun _ => (.error (.assertionError "boom") : Except PyError Unit)) =
      .error (.assertionError "boom") :=
  (claim_C10_no_suppression
    (APIClient.init "https://jsonplaceholder.typicode.com" 10)
    (fun _ => (.error (.assertionError "boom") : Except PyError Unit))
    (.assertionError "boom") rfl).2.1

end QAApi
